import Mathlib

/-!
# Shallow embedding of the testcontainers single-container pipeline

This file embeds the Go package `testcontainers` (one source file): a
container-lifecycle pipeline built from a `GenericContainerDefinition`
(image source, exposed ports, creator/starter/terminator chain), decorator
implementations of the `ContainerCreator`/`ContainerStarter` interfaces,
and an orchestrator (`Testcontainers`) exposing `Run` and `Info`.

Conventions of the embedding:
* Go's two-valued returns `(T, error)` become `T × Option Err`; a Go
  function returning a pointer that may be `nil` becomes `Option T`.
* Calls on a `nil` interface value panic in Go; evaluation functions
  therefore return `Option` (`none` = panic), and the interface types get
  an explicit `nil` inhabitant.
* Side effects (log lines, requests issued to the container runtime, the
  readiness wait) are recorded in an event trace returned alongside the
  result.  Each evaluation of a `Create`/`Start` method additionally
  prepends an entry marker to its trace, so that "the inner delegate is
  invoked exactly once" is expressible as an equation on marker counts.
* The Docker client, the docker API argument types, and the readiness
  `wait.Strategy` live outside this source file; they are modelled from
  the spec as abstract response functions (see the doc comments below).
-/

/-- Go `error` values, compared for identity only. -/
abbrev Err := String

/-- `nat.Port`: a port spec string such as "80/tcp". -/
abbrev Port := String

/-- `context.Context`: only threaded through, never inspected by this code. -/
structure Context where

/-- `context.Background()`. -/
def Context.background : Context := {}

/-- Modelled from the spec: the platform constraint `{architecture, OS}`
carried by a `FromImage` source (the external `v1.Platform` type). -/
structure Platform where
  Architecture : String
  OS : String
deriving DecidableEq

/-- Modelled from the spec: the container-create request configuration the
runtime client accepts (image reference and exposed-port set); the external
docker API config type.  The source under study only ever passes `nil` for
it. -/
structure ContainerConfig where
  image : String
  exposedPorts : List Port
deriving DecidableEq

/-- Modelled from the spec: the runtime's response to a create request,
carrying the runtime-assigned id (the external `container.CreateResponse`). -/
structure CreateResponse where
  ID : String
deriving DecidableEq

/-- `container.StartOptions`: empty options struct passed to ContainerStart. -/
structure StartOptions where
deriving DecidableEq

/-- Modelled from the spec: the runtime client capability (`DockerClient`
is referenced but not defined in the studied source).  It answers a create
request — `ContainerCreate(ctx, config, hostConfig, networkingConfig,
platform, containerName)` — with a runtime-assigned id or an error, and a
start request — `ContainerStart(ctx, id, options)` — with an optional
error.  The pipeline treats it as an opaque collaborator, so it is
modelled as a pair of response functions. -/
structure DockerClient where
  containerCreate : Context → Option ContainerConfig → Option Unit → Option Unit →
    Option Platform → String → Except Err CreateResponse
  containerStart : Context → String → StartOptions → Option Err

/-- `slog.Logger`: only its side effects matter; messages are recorded as
trace events, so the logger value itself carries no data. -/
structure Logger where

/-- Modelled from the spec: a readiness `wait.Strategy` (external pluggable
predicate).  `WaitUntilReady(ctx, target)` receives an adapter wrapping the
started container; the strategy is modelled as a function of the context
and of the started container's id (the adapter's observable identity),
returning an optional error. -/
def WaitStrategy := Context → String → Option Err

/-- `FromImageSource`: an image source wrapping a literal tag plus an
optional platform constraint. -/
structure FromImageSource where
  image : String
  platform : Option Platform
deriving DecidableEq

/-- `FromImageSource.Prepare`: returns the stored tag unchanged, no error. -/
def FromImageSource.Prepare (f : FromImageSource) (_ctx : Context) : Except Err String :=
  Except.ok f.image

/-- `FromImageSourceOption`: a mutation applied to a source under construction. -/
def FromImageSourceOption := FromImageSource → FromImageSource

/-- `WithImagePlatform`: sets the source's platform constraint.  Note the
source code ignores the `platform` argument and always stores
`{Architecture: "amd64", OS: "linux"}`. -/
def WithImagePlatform (_platform : String) : FromImageSourceOption :=
  fun s => { s with platform := some { Architecture := "amd64", OS := "linux" } }

/-- `FromImage(image, option...)`: builds a `FromImageSource` with the given
tag and folds the options over it in order. -/
def FromImage (image : String) (option : List FromImageSourceOption) : FromImageSource :=
  option.foldl (fun s opt => opt s) { image := image, platform := none }

/-- The `ContainerImageSource` interface.  `fromImage` is the one
implementation in the studied source; `custom` stands for any other
implementation of the Go interface (an arbitrary `Prepare`); `nil` is the
zero interface value. -/
inductive ContainerImageSource : Type
  | nil
  | fromImage (f : FromImageSource)
  | custom (prepare : Context → Except Err String)

/-- Dispatch `Prepare` on a `ContainerImageSource` value; `none` models the
panic of calling through a nil interface. -/
def ContainerImageSource.prepareEval : ContainerImageSource → Context →
    Option (Except Err String)
  | .nil, _ => none
  | .fromImage f, ctx => some (f.Prepare ctx)
  | .custom prepare, ctx => some (prepare ctx)

/-- Observable events of a pipeline run: requests issued to the runtime
client, log lines, the readiness wait, plus one entry marker per
`Create`/`Start` method invocation. -/
inductive Event : Type
  | createInvoked
  | startInvoked
  | prepareCalled
  | containerCreate (config : Option ContainerConfig) (hostConfig : Option Unit)
      (networkingConfig : Option Unit) (platform : Option Platform) (containerName : String)
  | containerStart (id : String)
  | waitUntilReady (id : String)
  | logMsg (msg : String)
  | logErr (msg : String)
deriving DecidableEq

/-- The `ContainerCreator` interface: the two implementations in the
studied source (`ContainerImageCreator`, `LoggingContainerCreator`) plus
the nil interface value. -/
inductive ContainerCreator : Type
  | nil
  | containerImage (client : DockerClient)
  | logging (inner : ContainerCreator) (logger : Logger)

/-- The `ContainerStarter` interface: the two implementations in the
studied source (`DockerContainerStarter`, `AwaitingContainerStarter`) plus
the nil interface value. -/
inductive ContainerStarter : Type
  | nil
  | docker (client : DockerClient)
  | awaiting (inner : ContainerStarter) (wait : WaitStrategy)

/-- The `ContainerTerminator` interface: declared but with no
implementation in the studied source. -/
inductive ContainerTerminator : Type
  | nil

/-- `GenericContainerDefinition`: image source, exposed ports and the
creator/starter/terminator chain. -/
structure GenericContainerDefinition where
  imageSource : ContainerImageSource
  exposedPorts : List Port
  creator : ContainerCreator
  starter : ContainerStarter
  terminator : ContainerTerminator

/-- The Go zero value `GenericContainerDefinition{}` (nil interfaces, nil
slice). -/
def GenericContainerDefinition.zero : GenericContainerDefinition :=
  { imageSource := .nil, exposedPorts := [], creator := .nil, starter := .nil,
    terminator := .nil }

/-- `CreatedContainer`: runtime-assigned id plus the originating definition. -/
structure CreatedContainer where
  ID : String
  definition : GenericContainerDefinition

/-- The Go zero value `CreatedContainer{}`. -/
def CreatedContainer.zero : CreatedContainer :=
  { ID := "", definition := GenericContainerDefinition.zero }

/-- `StartedContainer`: embeds `CreatedContainer` (a running tag on top of
a created container). -/
structure StartedContainer extends CreatedContainer

/-- The Go zero value `StartedContainer{}`. -/
def StartedContainer.zero : StartedContainer :=
  { toCreatedContainer := CreatedContainer.zero }

/-- `GenericContainerOption`: a mutation applied to a definition under
construction. -/
def GenericContainerOption := GenericContainerDefinition → GenericContainerDefinition

/-- `WithExposedPorts(ports...)`: appends each supplied port to the
definition's exposed-port list (a pure append, no deduplication). -/
def WithExposedPorts (ports : List Port) : GenericContainerOption :=
  fun c => { c with exposedPorts := ports.foldl (fun acc port => acc ++ [port]) c.exposedPorts }

/-- `WaitingFor(wait)`: wraps the definition's current starter in an
`AwaitingContainerStarter` carrying the given readiness strategy. -/
def WaitingFor (wait : WaitStrategy) : GenericContainerOption :=
  fun c => { c with starter := .awaiting c.starter wait }

/-- Dispatch `Create` on a `ContainerCreator` value.  Returns the
`(CreatedContainer, error)` pair plus the event trace; `none` models the
panic of calling through a nil interface.

* `containerImage` (`ContainerImageCreator.Create`): calls
  `definition.imageSource.Prepare`; on error returns the zero container and
  the error.  On success it issues
  `client.ContainerCreate(ctx, nil, nil, nil, nil, "")` — the resolved
  image reference and the definition's ports are not passed — and on
  success returns the runtime-assigned id with the originating definition.
* `logging` (`LoggingContainerCreator.Create`): logs "Creating container",
  delegates to the inner creator, logs "Failed to create container" or
  "Created container" accordingly, and forwards the inner result and error
  unchanged. -/
def ContainerCreator.createEval : ContainerCreator → Context → GenericContainerDefinition →
    Option ((CreatedContainer × Option Err) × List Event)
  | .nil, _, _ => none
  | .containerImage client, ctx, definition =>
    match definition.imageSource.prepareEval ctx with
    | none => none
    | some (Except.error e) =>
      some ((CreatedContainer.zero, some e), [Event.createInvoked, Event.prepareCalled])
    | some (Except.ok _image) =>
      match client.containerCreate ctx none none none none "" with
      | Except.error e =>
        some ((CreatedContainer.zero, some e),
          [Event.createInvoked, Event.prepareCalled,
           Event.containerCreate none none none none ""])
      | Except.ok created =>
        some ((({ ID := created.ID, definition := definition } : CreatedContainer), none),
          [Event.createInvoked, Event.prepareCalled,
           Event.containerCreate none none none none ""])
  | .logging inner _logger, ctx, definition =>
    match inner.createEval ctx definition with
    | none => none
    | some ((create, some e), tr) =>
      some ((create, some e),
        Event.createInvoked :: Event.logMsg "Creating container" ::
          (tr ++ [Event.logErr "Failed to create container"]))
    | some ((create, none), tr) =>
      some ((create, none),
        Event.createInvoked :: Event.logMsg "Creating container" ::
          (tr ++ [Event.logMsg "Created container"]))

/-- Dispatch `Start` on a `ContainerStarter` value.  Returns the
`(StartedContainer, error)` pair plus the event trace; `none` models the
panic of calling through a nil interface.

* `docker` (`DockerContainerStarter.Start`): issues
  `client.ContainerStart(ctx, container.ID, StartOptions{})`; on error
  returns the zero started container and the error, on success wraps the
  created container.
* `awaiting` (`AwaitingContainerStarter.Start`): delegates to the inner
  starter; on inner error returns the inner result and error.  On inner
  success invokes `wait.WaitUntilReady(ctx, &Adapted{started})`; on wait
  error returns the already-started container together with that error,
  otherwise the started container with no error. -/
def ContainerStarter.startEval : ContainerStarter → Context → CreatedContainer →
    Option ((StartedContainer × Option Err) × List Event)
  | .nil, _, _ => none
  | .docker client, ctx, container =>
    match client.containerStart ctx container.ID {} with
    | some e =>
      some ((StartedContainer.zero, some e),
        [Event.startInvoked, Event.containerStart container.ID])
    | none =>
      some ((({ toCreatedContainer := container } : StartedContainer), none),
        [Event.startInvoked, Event.containerStart container.ID])
  | .awaiting inner wait, ctx, container =>
    match inner.startEval ctx container with
    | none => none
    | some ((started, some e), tr) =>
      some ((started, some e), Event.startInvoked :: tr)
    | some ((started, none), tr) =>
      match wait ctx started.toCreatedContainer.ID with
      | some e =>
        some ((started, some e),
          Event.startInvoked :: (tr ++ [Event.waitUntilReady started.toCreatedContainer.ID]))
      | none =>
        some ((started, none),
          Event.startInvoked :: (tr ++ [Event.waitUntilReady started.toCreatedContainer.ID]))

/-- `ExecutionConfiguration`: the per-call context carrier. -/
structure ExecutionConfiguration where
  ctx : Context

/-- `ExecutionOption`: a mutation applied to an execution configuration. -/
def ExecutionOption := ExecutionConfiguration → ExecutionConfiguration

/-- `WithContext(ctx)`: overrides the call's context. -/
def WithContext (ctx : Context) : ExecutionOption :=
  fun conf => { conf with ctx := ctx }

/-- The execution configuration `Run`/`Info` build: the background context,
with the supplied options folded over it in order. -/
def ExecutionConfiguration.build (option : List ExecutionOption) : ExecutionConfiguration :=
  option.foldl (fun conf opt => opt conf) { ctx := Context.background }

/-- `ContainerInfo`: post-start query result (empty in the studied source). -/
structure ContainerInfo where
deriving DecidableEq

/-- `ContainerInfo.Host`: returns the empty string. -/
def ContainerInfo.Host (_ci : ContainerInfo) : String := ""

/-- `ContainerInfo.MappedPort`: returns the empty string for every port. -/
def ContainerInfo.MappedPort (_ci : ContainerInfo) (_port : Port) : String := ""

/-- `Testcontainers`: the orchestrator holding a runtime client and a logger. -/
structure Testcontainers where
  client : DockerClient
  logger : Logger

/-- `Testcontainers.NewGenericContainer`: builds the default chain —
a logging-decorated `ContainerImageCreator` and a plain
`DockerContainerStarter` over the orchestrator's client — then folds the
supplied options over it in order. -/
def Testcontainers.NewGenericContainer (t : Testcontainers) (source : ContainerImageSource)
    (option : List GenericContainerOption) : GenericContainerDefinition :=
  option.foldl (fun c opt => opt c)
    { imageSource := source
      exposedPorts := []
      creator := .logging (.containerImage t.client) t.logger
      starter := .docker t.client
      terminator := .nil }

/-- `Testcontainers.Run`: builds an execution configuration from the
options, then `creator.Create`; on error returns `(nil, err)`.  Then
`starter.Start`; on error returns `(nil, err)`.  On success returns the
started container and no error.  The outer `Option` models a panic through
a nil creator/starter interface; the inner `Option StartedContainer` is
the returned `*StartedContainer` pointer. -/
def Testcontainers.Run (_t : Testcontainers) (container : GenericContainerDefinition)
    (option : List ExecutionOption) :
    Option ((Option StartedContainer × Option Err) × List Event) :=
  let conf := ExecutionConfiguration.build option
  match container.creator.createEval conf.ctx container with
  | none => none
  | some ((_created, some e), tr) => some ((none, some e), tr)
  | some ((created, none), tr) =>
    match container.starter.startEval conf.ctx created with
    | none => none
    | some ((_started, some e), tr2) => some ((none, some e), tr ++ tr2)
    | some ((started, none), tr2) => some ((some started, none), tr ++ tr2)

/-- `Testcontainers.Info`: builds an execution configuration from the
options, then returns an empty `ContainerInfo` and no error, issuing no
request to the runtime (the returned trace is empty). -/
def Testcontainers.Info (_t : Testcontainers) (_container : StartedContainer)
    (option : List ExecutionOption) : (ContainerInfo × Option Err) × List Event :=
  let _conf := ExecutionConfiguration.build option
  (({}, none), [])

/-- Number of `Create`-invocation entry markers in a trace. -/
def countCreateInvoked (tr : List Event) : Nat :=
  tr.countP fun e => match e with | Event.createInvoked => true | _ => false

/-- Number of `Start`-invocation entry markers in a trace. -/
def countStartInvoked (tr : List Event) : Nat :=
  tr.countP fun e => match e with | Event.startInvoked => true | _ => false

/-- Number of readiness-wait invocations in a trace. -/
def countWaitUntilReady (tr : List Event) : Nat :=
  tr.countP fun e => match e with | Event.waitUntilReady _ => true | _ => false

/-- A stub runtime client: every create request is answered with id
`"abc"`, every start request succeeds. -/
def stubClient : DockerClient :=
  { containerCreate := fun _ _ _ _ _ _ => Except.ok { ID := "abc" }
    containerStart := fun _ _ _ => none }

/-- A stub runtime client that rejects every create request. -/
def createFailClient : DockerClient :=
  { containerCreate := fun _ _ _ _ _ _ => Except.error "create failed"
    containerStart := fun _ _ _ => none }

/-- A stub runtime client that accepts create requests (id `"abc"`) but
rejects every start request. -/
def startFailClient : DockerClient :=
  { containerCreate := fun _ _ _ _ _ _ => Except.ok { ID := "abc" }
    containerStart := fun _ _ _ => some "start failed" }

/-- A readiness strategy that always reports a timeout. -/
def timeoutWait : WaitStrategy := fun _ _ => some "timeout"

/-- An orchestrator over the always-succeeding stub client. -/
def t0 : Testcontainers := { client := stubClient, logger := {} }

/-- An orchestrator over the create-rejecting stub client. -/
def t1 : Testcontainers := { client := createFailClient, logger := {} }

/-- The image source `FromImage("nginx")`. -/
def nginxSource : ContainerImageSource :=
  ContainerImageSource.fromImage (FromImage "nginx" [])

/-- A concrete definition carrying the `"nginx"` source and exposed port
`"80/tcp"` (interface fields nil; used to evaluate a creator directly). -/
def dNginx : GenericContainerDefinition :=
  { imageSource := nginxSource, exposedPorts := ["80/tcp"], creator := .nil,
    starter := .nil, terminator := .nil }

/-- A definition built by the orchestrator with a readiness strategy that
always times out. -/
def dWait : GenericContainerDefinition :=
  t0.NewGenericContainer nginxSource [WaitingFor timeoutWait]

/-- The log line the logging creator emits after delegation: an error line
on failure, an info line on success. -/
def loggingTail : Option Err → Event
  | some _ => Event.logErr "Failed to create container"
  | none => Event.logMsg "Created container"

/-- Modelled from the spec: "the id is non-empty iff creation succeeded" —
a runtime client conforms when every successful create response carries a
non-empty id. -/
def DockerClient.AssignsNonEmptyIds (client : DockerClient) : Prop :=
  ∀ ctx config hostConfig networkingConfig platform name resp,
    client.containerCreate ctx config hostConfig networkingConfig platform name =
      Except.ok resp → resp.ID ≠ ""

/-- Every runtime client a creator chain talks to assigns non-empty ids. -/
def ContainerCreator.ClientAssignsNonEmptyIds : ContainerCreator → Prop
  | .nil => True
  | .containerImage client => client.AssignsNonEmptyIds
  | .logging inner _ => inner.ClientAssignsNonEmptyIds

theorem foldl_append_eq (l acc : List Port) :
    l.foldl (fun a port => a ++ [port]) acc = acc ++ l := by
  induction l generalizing acc with
  | nil => simp
  | cons p ps ih => simp [List.foldl, ih, List.append_assoc]

theorem withExposedPorts_apply (ports : List Port) (c : GenericContainerDefinition) :
    WithExposedPorts ports c = { c with exposedPorts := c.exposedPorts ++ ports } := by
  simp [WithExposedPorts, foldl_append_eq]

theorem foldl_withExposedPorts (pss : List (List Port)) (c : GenericContainerDefinition) :
    ((pss.map WithExposedPorts).foldl (fun c opt => opt c) c).exposedPorts =
      c.exposedPorts ++ pss.flatten := by
  induction pss generalizing c with
  | nil => simp
  | cons ps pss ih =>
    simp [List.foldl, withExposedPorts_apply, ih, List.append_assoc]

theorem foldl_withImagePlatform_image (ps : List String) (s : FromImageSource) :
    ((ps.map WithImagePlatform).foldl (fun s opt => opt s) s).image = s.image := by
  induction ps generalizing s with
  | nil => rfl
  | cons p ps ih => simp [List.foldl, ih, WithImagePlatform]

theorem startEval_ok_created : ∀ (s : ContainerStarter) (ctx : Context)
    (c : CreatedContainer) (st : StartedContainer) (tr : List Event),
    s.startEval ctx c = some ((st, none), tr) → st.toCreatedContainer = c := by
  intro s
  induction s with
  | nil =>
    intro ctx c st tr h
    simp [ContainerStarter.startEval] at h
  | docker client =>
    intro ctx c st tr h
    simp only [ContainerStarter.startEval] at h
    cases hcs : client.containerStart ctx c.ID {} with
    | some e => rw [hcs] at h; simp at h
    | none =>
      rw [hcs] at h
      simp at h
      obtain ⟨hst, _⟩ := h
      rw [← hst]
  | awaiting inner wait ih =>
    intro ctx c st tr h
    simp only [ContainerStarter.startEval] at h
    cases hin : inner.startEval ctx c with
    | none => rw [hin] at h; simp at h
    | some p =>
      obtain ⟨⟨started, err⟩, tr2⟩ := p
      cases err with
      | some e => rw [hin] at h; simp at h
      | none =>
        simp only [hin] at h
        cases hw : wait ctx started.toCreatedContainer.ID with
        | some e => simp only [hw] at h; simp at h
        | none =>
          simp only [hw] at h
          simp at h
          obtain ⟨hst, _⟩ := h
          rw [← hst]
          exact ih ctx c started tr2 hin

theorem createEval_ok_id_ne : ∀ (cr : ContainerCreator),
    cr.ClientAssignsNonEmptyIds → ∀ (ctx : Context) (d : GenericContainerDefinition)
    (c : CreatedContainer) (tr : List Event),
    cr.createEval ctx d = some ((c, none), tr) → c.ID ≠ "" := by
  intro cr
  induction cr with
  | nil =>
    intro _ ctx d c tr h
    simp [ContainerCreator.createEval] at h
  | containerImage client =>
    intro hcl ctx d c tr h
    simp only [ContainerCreator.createEval] at h
    cases hp : d.imageSource.prepareEval ctx with
    | none => rw [hp] at h; simp at h
    | some res =>
      rw [hp] at h
      cases res with
      | error e => simp at h
      | ok image =>
        cases hcc : client.containerCreate ctx none none none none "" with
        | error e => rw [hcc] at h; simp at h
        | ok created =>
          rw [hcc] at h
          simp at h
          obtain ⟨hc, _⟩ := h
          rw [← hc]
          exact hcl ctx none none none none "" created hcc
  | logging inner logger ih =>
    intro hcl ctx d c tr h
    simp only [ContainerCreator.createEval] at h
    cases hin : inner.createEval ctx d with
    | none => rw [hin] at h; simp at h
    | some p =>
      obtain ⟨⟨create, err⟩, tr2⟩ := p
      cases err with
      | some e => rw [hin] at h; simp at h
      | none =>
        rw [hin] at h
        simp at h
        obtain ⟨hc, _⟩ := h
        rw [← hc]
        exact ih hcl ctx d create tr2 hin

theorem createEval_countStartInvoked : ∀ (cr : ContainerCreator) (ctx : Context)
    (d : GenericContainerDefinition) (r : CreatedContainer × Option Err) (tr : List Event),
    cr.createEval ctx d = some (r, tr) → countStartInvoked tr = 0 := by
  intro cr
  induction cr with
  | nil =>
    intro ctx d r tr h
    simp [ContainerCreator.createEval] at h
  | containerImage client =>
    intro ctx d r tr h
    simp only [ContainerCreator.createEval] at h
    cases hp : d.imageSource.prepareEval ctx with
    | none => rw [hp] at h; simp at h
    | some res =>
      rw [hp] at h
      cases res with
      | error e =>
        simp at h
        obtain ⟨_, htr⟩ := h
        rw [← htr]
        rfl
      | ok image =>
        cases hcc : client.containerCreate ctx none none none none "" with
        | error e =>
          rw [hcc] at h
          simp at h
          obtain ⟨_, htr⟩ := h
          rw [← htr]
          rfl
        | ok created =>
          rw [hcc] at h
          simp at h
          obtain ⟨_, htr⟩ := h
          rw [← htr]
          rfl
  | logging inner logger ih =>
    intro ctx d r tr h
    simp only [ContainerCreator.createEval] at h
    cases hin : inner.createEval ctx d with
    | none => rw [hin] at h; simp at h
    | some p =>
      obtain ⟨⟨create, err⟩, tr2⟩ := p
      cases err with
      | some e =>
        rw [hin] at h
        simp at h
        obtain ⟨_, htr⟩ := h
        rw [← htr]
        have h2 := ih ctx d (create, some e) tr2 hin
        simp [countStartInvoked, List.countP_cons, List.countP_append] at h2 ⊢
        exact h2
      | none =>
        rw [hin] at h
        simp at h
        obtain ⟨_, htr⟩ := h
        rw [← htr]
        have h2 := ih ctx d (create, none) tr2 hin
        simp [countStartInvoked, List.countP_cons, List.countP_append] at h2 ⊢
        exact h2

/-- A concrete created container with id `"abc"`. -/
def cAbc : CreatedContainer := { ID := "abc", definition := GenericContainerDefinition.zero }

/-- A definition built by the orchestrator over the create-rejecting client. -/
def dFail : GenericContainerDefinition := t1.NewGenericContainer nginxSource []

/-- A definition built by the orchestrator over the always-succeeding client. -/
def dOk : GenericContainerDefinition := t0.NewGenericContainer nginxSource []

/-- C2: the claim says the base creator issues the runtime create request
using the resolved image reference and the definition's exposed-port set.
The code calls `ContainerCreate(ctx, nil, nil, nil, nil, "")`: evaluating
`ContainerImageCreator.Create` on a definition whose source resolves to
`"nginx"` and whose exposed ports are `["80/tcp"]` issues a request whose
config, host config, networking config and platform are all nil and whose
name is empty — the resolved reference and the ports are dropped.  (The
`Prepare`-first ordering and the returned id/definition do match the
claim.) -/
theorem c2_create_request_drops_image_and_ports :
    (ContainerCreator.containerImage stubClient).createEval {} dNginx =
      some ((({ ID := "abc", definition := dNginx } : CreatedContainer), none),
        [Event.createInvoked, Event.prepareCalled,
         Event.containerCreate none none none none ""]) := rfl

/-- C6: building a definition with a sequence of `WithExposedPorts` options
supplying port lists `pss` yields exactly the concatenation of those lists,
in order, duplicates kept; in particular its length is the total number of
supplied ports. -/
theorem c6_with_exposed_ports_appends :
    ∀ (t : Testcontainers) (source : ContainerImageSource) (pss : List (List Port)),
    (t.NewGenericContainer source (pss.map WithExposedPorts)).exposedPorts = pss.flatten ∧
    (t.NewGenericContainer source (pss.map WithExposedPorts)).exposedPorts.length =
      (pss.map List.length).sum := by
  intro t source pss
  have h : (t.NewGenericContainer source (pss.map WithExposedPorts)).exposedPorts =
      pss.flatten := by
    simpa [Testcontainers.NewGenericContainer] using
      foldl_withExposedPorts pss
        { imageSource := source, exposedPorts := [],
          creator := .logging (.containerImage t.client) t.logger,
          starter := .docker t.client, terminator := .nil }
  exact ⟨h, by rw [h]; exact List.length_flatten pss⟩

/-- C7: `Prepare` on a `FromImage` source returns the stored tag unchanged
with no error, repeated calls agree (idempotence), the platform options
never affect the returned reference, and in particular
`FromImage("nginx", WithImagePlatform("linux/amd64")).Prepare(ctx)` returns
`("nginx", nil)`. -/
theorem c7_from_image_prepare_returns_tag :
    ∀ (image : String) (platforms : List String) (ctx ctx2 : Context),
    (ContainerImageSource.fromImage
        (FromImage image (platforms.map WithImagePlatform))).prepareEval ctx =
      some (Except.ok image) ∧
    (FromImage image (platforms.map WithImagePlatform)).Prepare ctx = Except.ok image ∧
    (FromImage image (platforms.map WithImagePlatform)).Prepare ctx =
      (FromImage image (platforms.map WithImagePlatform)).Prepare ctx2 ∧
    (FromImage "nginx" [WithImagePlatform "linux/amd64"]).Prepare ctx = Except.ok "nginx" := by
  intro image platforms ctx ctx2
  have himg : (FromImage image (platforms.map WithImagePlatform)).image = image := by
    simpa [FromImage] using
      foldl_withImagePlatform_image platforms { image := image, platform := none }
  refine ⟨?_, ?_, rfl, rfl⟩
  · simp [ContainerImageSource.prepareEval, FromImageSource.Prepare, himg]
  · simp [FromImageSource.Prepare, himg]

/-- C9: `WithImagePlatform` ignores its string argument entirely and always
stores the platform `{Architecture := "amd64", OS := "linux"}`; two
`FromImage` calls with different platform strings build identical sources. -/
theorem c9_with_image_platform_ignores_argument :
    ∀ (p1 p2 : String) (s : FromImageSource) (image : String),
    WithImagePlatform p1 s = WithImagePlatform p2 s ∧
    (WithImagePlatform p1 s).platform =
      some { Architecture := "amd64", OS := "linux" } ∧
    FromImage image [WithImagePlatform p1] = FromImage image [WithImagePlatform p2] := by
  intro p1 p2 s image
  exact ⟨rfl, rfl, rfl⟩

/-- C10: `Info` returns an empty `ContainerInfo` and no error without
issuing any request to the runtime (empty trace), and on that value
`Host()` and `MappedPort(p)` return the empty string for every port. -/
theorem c10_info_returns_empty :
    ∀ (t : Testcontainers) (container : StartedContainer)
      (option : List ExecutionOption) (port : Port),
    t.Info container option = (({}, none), []) ∧
    (t.Info container option).1.1.Host = "" ∧
    (t.Info container option).1.1.MappedPort port = "" := by
  intro t container option port
  exact ⟨rfl, rfl, rfl⟩

/-- C3: whenever the definition's creator fails, `Run` returns a nil
started handle together with exactly the error `Create` returned, and no
`Start` invocation occurs (the returned trace — which is exactly the create
stage's trace — contains no start entry marker). -/
theorem c3_create_error_short_circuits :
    ∀ (t : Testcontainers) (container : GenericContainerDefinition)
      (option : List ExecutionOption) (created : CreatedContainer) (e : Err)
      (tr : List Event),
    container.creator.createEval (ExecutionConfiguration.build option).ctx container =
      some ((created, some e), tr) →
    t.Run container option = some ((none, some e), tr) ∧ countStartInvoked tr = 0 := by
  intro t container option created e tr h
  refine ⟨?_, createEval_countStartInvoked container.creator _ container (created, some e) tr h⟩
  simp only [Testcontainers.Run, h]

/-- Witness for C3: the orchestrator over the create-rejecting client. -/
theorem c3_witness :
    dFail.creator.createEval (ExecutionConfiguration.build []).ctx dFail =
      some ((CreatedContainer.zero, some "create failed"),
        [Event.createInvoked, Event.logMsg "Creating container", Event.createInvoked,
         Event.prepareCalled, Event.containerCreate none none none none "",
         Event.logErr "Failed to create container"]) ∧
    (t1.Run dFail [] =
      some ((none, some "create failed"),
        [Event.createInvoked, Event.logMsg "Creating container", Event.createInvoked,
         Event.prepareCalled, Event.containerCreate none none none none "",
         Event.logErr "Failed to create container"]) ∧
      countStartInvoked
        [Event.createInvoked, Event.logMsg "Creating container", Event.createInvoked,
         Event.prepareCalled, Event.containerCreate none none none none "",
         Event.logErr "Failed to create container"] = 0) :=
  ⟨rfl, c3_create_error_short_circuits t1 dFail [] CreatedContainer.zero "create failed" _ rfl⟩

/-- C4: when the readiness-awaiting starter's inner `Start` fails, the
decorator returns the inner result and error unchanged (its trace is the
inner trace plus its own entry marker) and never invokes the readiness
strategy's `WaitUntilReady` (the wait count of the returned trace equals
that of the inner trace). -/
theorem c4_awaiting_skips_wait_on_inner_failure :
    ∀ (inner : ContainerStarter) (wait : WaitStrategy) (ctx : Context)
      (container : CreatedContainer) (started : StartedContainer) (e : Err)
      (tr : List Event),
    inner.startEval ctx container = some ((started, some e), tr) →
    (ContainerStarter.awaiting inner wait).startEval ctx container =
      some ((started, some e), Event.startInvoked :: tr) ∧
    countWaitUntilReady (Event.startInvoked :: tr) = countWaitUntilReady tr := by
  intro inner wait ctx container started e tr h
  constructor
  · simp only [ContainerStarter.startEval, h]
  · simp [countWaitUntilReady, List.countP_cons]

/-- Witness for C4: a docker starter over the start-rejecting client,
wrapped by an awaiting decorator with the always-timeout strategy. -/
theorem c4_witness :
    (ContainerStarter.docker startFailClient).startEval {} cAbc =
      some ((StartedContainer.zero, some "start failed"),
        [Event.startInvoked, Event.containerStart "abc"]) ∧
    ((ContainerStarter.awaiting (ContainerStarter.docker startFailClient)
          timeoutWait).startEval {} cAbc =
      some ((StartedContainer.zero, some "start failed"),
        Event.startInvoked :: [Event.startInvoked, Event.containerStart "abc"]) ∧
      countWaitUntilReady
          (Event.startInvoked :: [Event.startInvoked, Event.containerStart "abc"]) =
        countWaitUntilReady [Event.startInvoked, Event.containerStart "abc"]) :=
  ⟨rfl, c4_awaiting_skips_wait_on_inner_failure (ContainerStarter.docker startFailClient)
    timeoutWait {} cAbc StartedContainer.zero "start failed"
    [Event.startInvoked, Event.containerStart "abc"] rfl⟩

/-- C5: the logging creator decorator forwards the inner `Create`'s result
and error unchanged, in both the success and the failure case, and invokes
the inner creator exactly once: its trace is its own entry marker, the
"Creating container" line, the inner trace, and the success/failure line —
so it contains exactly one create entry marker beyond those of the inner
trace. -/
theorem c5_logging_delegates_once_and_forwards :
    ∀ (inner : ContainerCreator) (logger : Logger) (ctx : Context)
      (d : GenericContainerDefinition) (create : CreatedContainer)
      (err : Option Err) (tr : List Event),
    inner.createEval ctx d = some ((create, err), tr) →
    (ContainerCreator.logging inner logger).createEval ctx d =
      some ((create, err),
        Event.createInvoked :: Event.logMsg "Creating container" ::
          (tr ++ [loggingTail err])) ∧
    countCreateInvoked
        (Event.createInvoked :: Event.logMsg "Creating container" ::
          (tr ++ [loggingTail err])) =
      1 + countCreateInvoked tr := by
  intro inner logger ctx d create err tr h
  constructor
  · cases err with
    | some e => simp only [ContainerCreator.createEval, h, loggingTail]
    | none => simp only [ContainerCreator.createEval, h, loggingTail]
  · cases err <;>
      simp [countCreateInvoked, List.countP_cons, List.countP_append, loggingTail,
        Nat.add_comm]

/-- Witness for C5: the base creator over the stub client, wrapped by the
logging decorator, on the `"nginx"` definition. -/
theorem c5_witness :
    (ContainerCreator.containerImage stubClient).createEval {} dNginx =
      some ((({ ID := "abc", definition := dNginx } : CreatedContainer), none),
        [Event.createInvoked, Event.prepareCalled,
         Event.containerCreate none none none none ""]) ∧
    ((ContainerCreator.logging (ContainerCreator.containerImage stubClient)
          ({} : Logger)).createEval {} dNginx =
      some ((({ ID := "abc", definition := dNginx } : CreatedContainer), none),
        Event.createInvoked :: Event.logMsg "Creating container" ::
          ([Event.createInvoked, Event.prepareCalled,
            Event.containerCreate none none none none ""] ++ [loggingTail none])) ∧
      countCreateInvoked
          (Event.createInvoked :: Event.logMsg "Creating container" ::
            ([Event.createInvoked, Event.prepareCalled,
              Event.containerCreate none none none none ""] ++ [loggingTail none])) =
        1 + countCreateInvoked
          [Event.createInvoked, Event.prepareCalled,
           Event.containerCreate none none none none ""]) :=
  ⟨rfl, c5_logging_delegates_once_and_forwards
    (ContainerCreator.containerImage stubClient) ({} : Logger) {} dNginx
    { ID := "abc", definition := dNginx } none
    [Event.createInvoked, Event.prepareCalled,
     Event.containerCreate none none none none ""] rfl⟩

/-- C1 counterexample: with a client that creates id `"abc"` and starts
successfully, and a readiness strategy that reports a timeout, `Run`
returns a NIL started handle (first component `none`) together with the
timeout error — not a non-nil `StartedContainer` as the claim states.  The
trace shows create and start both succeeded and the wait was invoked. -/
theorem c1_counterexample :
    Testcontainers.Run t0 dWait [] =
      some ((none, some "timeout"),
        [Event.createInvoked, Event.logMsg "Creating container", Event.createInvoked,
         Event.prepareCalled, Event.containerCreate none none none none "",
         Event.logMsg "Created container", Event.startInvoked, Event.startInvoked,
         Event.containerStart "abc", Event.waitUntilReady "abc"]) := rfl

/-- C1 (amended): when the inner start succeeds but the readiness strategy
returns an error, the awaiting starter's `Start` does return the non-nil
started container together with that readiness error; `Run`, however,
discards that handle and returns a nil `StartedContainer` together with
the same readiness error. -/
theorem c1_awaiting_keeps_handle_run_drops_it :
    ∀ (t : Testcontainers) (d : GenericContainerDefinition)
      (option : List ExecutionOption) (inner : ContainerStarter) (wait : WaitStrategy)
      (created : CreatedContainer) (trc : List Event) (started : StartedContainer)
      (trs : List Event) (e : Err),
    d.starter = ContainerStarter.awaiting inner wait →
    d.creator.createEval (ExecutionConfiguration.build option).ctx d =
      some ((created, none), trc) →
    inner.startEval (ExecutionConfiguration.build option).ctx created =
      some ((started, none), trs) →
    wait (ExecutionConfiguration.build option).ctx started.toCreatedContainer.ID = some e →
    d.starter.startEval (ExecutionConfiguration.build option).ctx created =
      some ((started, some e),
        Event.startInvoked ::
          (trs ++ [Event.waitUntilReady started.toCreatedContainer.ID])) ∧
    t.Run d option =
      some ((none, some e),
        trc ++ (Event.startInvoked ::
          (trs ++ [Event.waitUntilReady started.toCreatedContainer.ID]))) := by
  intro t d option inner wait created trc started trs e hstarter hc hi hw
  have hs : d.starter.startEval (ExecutionConfiguration.build option).ctx created =
      some ((started, some e),
        Event.startInvoked ::
          (trs ++ [Event.waitUntilReady started.toCreatedContainer.ID])) := by
    rw [hstarter]
    simp only [ContainerStarter.startEval, hi, hw]
  refine ⟨hs, ?_⟩
  simp only [Testcontainers.Run, hc, hs]

/-- Witness for the amended C1: the `"nginx"` definition with the
always-timeout readiness strategy over the always-succeeding client. -/
theorem c1_amended_witness :
    dWait.starter = ContainerStarter.awaiting (ContainerStarter.docker stubClient)
      timeoutWait ∧
    dWait.creator.createEval (ExecutionConfiguration.build []).ctx dWait =
      some ((({ ID := "abc", definition := dWait } : CreatedContainer), none),
        [Event.createInvoked, Event.logMsg "Creating container", Event.createInvoked,
         Event.prepareCalled, Event.containerCreate none none none none "",
         Event.logMsg "Created container"]) ∧
    (ContainerStarter.docker stubClient).startEval (ExecutionConfiguration.build []).ctx
        ({ ID := "abc", definition := dWait } : CreatedContainer) =
      some ((({ toCreatedContainer := { ID := "abc", definition := dWait } } :
          StartedContainer), none),
        [Event.startInvoked, Event.containerStart "abc"]) ∧
    timeoutWait (ExecutionConfiguration.build []).ctx "abc" = some "timeout" ∧
    dWait.starter.startEval (ExecutionConfiguration.build []).ctx
        ({ ID := "abc", definition := dWait } : CreatedContainer) =
      some (((({ toCreatedContainer := { ID := "abc", definition := dWait } } :
          StartedContainer)), some "timeout"),
        Event.startInvoked ::
          ([Event.startInvoked, Event.containerStart "abc"] ++
            [Event.waitUntilReady "abc"])) ∧
    Testcontainers.Run t0 dWait [] =
      some ((none, some "timeout"),
        [Event.createInvoked, Event.logMsg "Creating container", Event.createInvoked,
         Event.prepareCalled, Event.containerCreate none none none none "",
         Event.logMsg "Created container"] ++
          (Event.startInvoked ::
            ([Event.startInvoked, Event.containerStart "abc"] ++
              [Event.waitUntilReady "abc"]))) := by
  refine ⟨rfl, rfl, rfl, rfl, ?_, ?_⟩ <;>
  exact (c1_awaiting_keeps_handle_run_drops_it t0 dWait []
    (ContainerStarter.docker stubClient) timeoutWait
    { ID := "abc", definition := dWait }
    [Event.createInvoked, Event.logMsg "Creating container", Event.createInvoked,
     Event.prepareCalled, Event.containerCreate none none none none "",
     Event.logMsg "Created container"]
    { toCreatedContainer := { ID := "abc", definition := dWait } }
    [Event.startInvoked, Event.containerStart "abc"] "timeout"
    rfl rfl rfl rfl).elim (fun a b => by first | exact a | exact b)

/-- C8: for a `Run` whose create and start stages both succeed, `Run`
returns the started container, whose id equals the id of the
`CreatedContainer` produced by that same call's create stage (the started
container wraps exactly the created one); and provided the runtime client
assigns non-empty ids on successful creates (the spec's contract for the
external client), both ids are non-empty. -/
theorem c8_run_success_preserves_id :
    ∀ (t : Testcontainers) (d : GenericContainerDefinition)
      (option : List ExecutionOption) (created : CreatedContainer) (trc : List Event)
      (started : StartedContainer) (trs : List Event),
    d.creator.createEval (ExecutionConfiguration.build option).ctx d =
      some ((created, none), trc) →
    d.starter.startEval (ExecutionConfiguration.build option).ctx created =
      some ((started, none), trs) →
    t.Run d option = some ((some started, none), trc ++ trs) ∧
    started.toCreatedContainer.ID = created.ID ∧
    (d.creator.ClientAssignsNonEmptyIds →
      created.ID ≠ "" ∧ started.toCreatedContainer.ID ≠ "") := by
  intro t d option created trc started trs hc hs
  have hid : started.toCreatedContainer = created :=
    startEval_ok_created d.starter _ created started trs hs
  refine ⟨?_, by rw [hid], ?_⟩
  · simp only [Testcontainers.Run, hc, hs]
  · intro hcl
    have hne := createEval_ok_id_ne d.creator hcl _ d created trc hc
    exact ⟨hne, by rw [hid]; exact hne⟩

/-- Witness for C8: the orchestrator over the always-succeeding client on
the plain `"nginx"` definition. -/
theorem c8_witness :
    dOk.creator.createEval (ExecutionConfiguration.build []).ctx dOk =
      some ((({ ID := "abc", definition := dOk } : CreatedContainer), none),
        [Event.createInvoked, Event.logMsg "Creating container", Event.createInvoked,
         Event.prepareCalled, Event.containerCreate none none none none "",
         Event.logMsg "Created container"]) ∧
    dOk.starter.startEval (ExecutionConfiguration.build []).ctx
        ({ ID := "abc", definition := dOk } : CreatedContainer) =
      some ((({ toCreatedContainer := { ID := "abc", definition := dOk } } :
          StartedContainer), none),
        [Event.startInvoked, Event.containerStart "abc"]) ∧
    (Testcontainers.Run t0 dOk [] =
      some ((some ({ toCreatedContainer := { ID := "abc", definition := dOk } } :
          StartedContainer), none),
        [Event.createInvoked, Event.logMsg "Creating container", Event.createInvoked,
         Event.prepareCalled, Event.containerCreate none none none none "",
         Event.logMsg "Created container"] ++
          [Event.startInvoked, Event.containerStart "abc"]) ∧
      ({ toCreatedContainer := { ID := "abc", definition := dOk } } :
          StartedContainer).toCreatedContainer.ID =
        ({ ID := "abc", definition := dOk } : CreatedContainer).ID ∧
      (dOk.creator.ClientAssignsNonEmptyIds →
        ({ ID := "abc", definition := dOk } : CreatedContainer).ID ≠ "" ∧
        ({ toCreatedContainer := { ID := "abc", definition := dOk } } :
            StartedContainer).toCreatedContainer.ID ≠ "")) :=
  ⟨rfl, rfl, c8_run_success_preserves_id t0 dOk []
    { ID := "abc", definition := dOk }
    [Event.createInvoked, Event.logMsg "Creating container", Event.createInvoked,
     Event.prepareCalled, Event.containerCreate none none none none "",
     Event.logMsg "Created container"]
    { toCreatedContainer := { ID := "abc", definition := dOk } }
    [Event.startInvoked, Event.containerStart "abc"] rfl rfl⟩
